import Mathlib

/-!
Verification of the GitLab Profiler client (app.py).

The source is a single-file Streamlit application.  We shallowly embed it:

* HTTP calls (`requests.get` followed by `raise_for_status`) become values of
  an explicit `Transport` type: either a transport-level failure (the call
  raised `requests.exceptions.RequestException`) or a response carrying a
  status code and an already-parsed body.  `raise_for_status` raises exactly
  for status codes 400-599, and that exception is the same
  `RequestException` subclass the `except` clauses catch.
* The three API helpers (`fetch_gitlab_user`, `fetch_user_projects`,
  `get_project_languages`) become total functions from a `Transport` value to
  their Python return value; totality models the fact that the `try/except`
  blocks let no modelled failure escape.
* The Streamlit rendering functions become functions producing a trace of
  render events (`RenderEvent`), one event per Streamlit call or per
  API fetch performed while rendering.
* Session state (`st.session_state.messages`, `st.session_state.user_data`)
  becomes an explicit `SessionState` record threaded through the handlers.

Language percentages (floats in the JSON) are modelled as rationals; the
client never computes with them, it only passes them through to the charts.
-/

namespace GitLabProfiler

/-- A chat message, `{"role": role, "content": content}` in the source. -/
structure Message where
  role : String
  content : String
  deriving Repr, DecidableEq

/-- The user record returned by `GET /api/v4/users?username=...`.
`name`, `username`, `id`, `state` are always present on a GitLab user
object; `avatar_url`, `created_at` and `web_url` are modelled as optional
because the renderer accesses them with `user.get(...)`. -/
structure User where
  id : Nat
  name : String
  username : String
  state : String
  avatar_url : Option String := none
  created_at : Option String := none
  web_url : Option String := none
  deriving Repr, DecidableEq

/-- The value sitting under a project record under the key `statistics`, when
that key is present: either a JSON object (a Python `dict`, whose
`commit_count` entry may itself be present or absent), or any non-`dict`
value (`isinstance(x, dict)` is false). -/
inductive StatVal where
  | dict (commit_count : Option Nat)
  | nonDict
  deriving Repr, DecidableEq

/-- A project record from `GET /api/v4/users/{id}/projects`.  `statistics`
is `none` when the key is absent from the JSON object. -/
structure Project where
  id : Nat
  name : String
  star_count : Nat
  forks_count : Nat
  statistics : Option StatVal := none
  deriving Repr, DecidableEq

/-- A language breakdown: the parsed JSON object of
`GET /api/v4/projects/{id}/languages`, an ordered mapping
language name to percentage. -/
abbrev LangMap := List (String × Rat)

/-- An HTTP response as seen after `requests.get` returned: a status code and
the parsed JSON body. -/
structure HttpResponse (α : Type) where
  status : Nat
  body : α
  deriving Repr, DecidableEq

/-- Outcome of a `requests.get` call: a response, or a raised
`requests.exceptions.RequestException` (connection error, timeout, ...). -/
inductive Transport (α : Type) where
  | ok (resp : HttpResponse α)
  | error
  deriving Repr, DecidableEq

/-- Python `response.raise_for_status()`: raises `HTTPError` (a
`RequestException`) exactly when the status code is 4xx or 5xx. -/
def raise_for_status {α : Type} (r : HttpResponse α) : Except Unit (HttpResponse α) :=
  if 400 ≤ r.status ∧ r.status < 600 then .error () else .ok r

/-- Embeds `fetch_gitlab_user` (app.py lines 27-38): on any
`RequestException` (transport error or `raise_for_status` on a 4xx/5xx)
return `None`; otherwise return `users[0] if users else None`. -/
def fetch_gitlab_user (net : Transport (List User)) : Option User :=
  match net with
  | .error => none
  | .ok r =>
    match raise_for_status r with
    | .error _ => none
    | .ok r => r.body.head?

/-- Embeds `fetch_user_projects` (app.py lines 40-49): on any
`RequestException` return `[]`, otherwise the parsed project array. -/
def fetch_user_projects (net : Transport (List Project)) : List Project :=
  match net with
  | .error => []
  | .ok r =>
    match raise_for_status r with
    | .error _ => []
    | .ok r => r.body

/-- Embeds `get_project_languages` (app.py lines 51-60): on any
`RequestException` return `{}`, otherwise the parsed language mapping. -/
def get_project_languages (net : Transport LangMap) : LangMap :=
  match net with
  | .error => []
  | .ok r =>
    match raise_for_status r with
    | .error _ => []
    | .ok r => r.body

/-! Renderer: each Streamlit call made by the two display functions becomes
one trace event, in execution order.  API fetches performed during rendering
also leave an event, so the trace records what was fetched and when. -/

/-- One row of the grouped bar chart: the `df_stats` DataFrame row for one
project.  `commit_count` is `none` when the DataFrame has no `commit_count`
column at all (the `if statistics in df.columns` guard failed), and
`some c` when the column exists and holds `c` for this row. -/
structure BarRow where
  name : String
  star_count : Nat
  forks_count : Nat
  commit_count : Option Nat
  deriving Repr, DecidableEq

/-- A render event: one Streamlit call, or one language fetch, made while a
display function runs. -/
inductive RenderEvent where
  | subheader (text : String)
  | warning (text : String)
  | markdown (text : String)
  | info (text : String)
  | barChart (rows : List BarRow)
  | spinner (text : String)
  | langFetch (project_id : Nat)
  | pieChart (title : String) (slices : LangMap) (column : Nat)
  | textFallback (name : String) (caption : String) (column : Nat)
  | image (url : String)
  | jsonView (u : User)
  deriving Repr, DecidableEq

/-- Python `x.get(lit commit_count, 0) if isinstance(x, dict) else 0`, applied
to a row of the `statistics` column (app.py line 93).  A row where the key
was absent holds NaN in pandas, which is not a `dict`, hence 0. -/
def commitCount : Option StatVal → Nat
  | some (.dict c) => c.getD 0
  | some .nonDict => 0
  | none => 0

/-- Python `if statistics in df.columns` for `df = pd.DataFrame(projects)`:
pandas makes a column for a key exactly when at least one record has it. -/
def hasStatisticsColumn (projects : List Project) : Bool :=
  projects.any fun p => p.statistics.isSome

/-- The rows of `df_stats` as passed to `st.bar_chart` (app.py lines 91-94):
the `name`, `star_count`, `forks_count` columns of every project, plus a
`commit_count` column only when the `statistics` column exists. -/
def barRows (projects : List Project) : List BarRow :=
  if hasStatisticsColumn projects then
    projects.map fun p =>
      { name := p.name, star_count := p.star_count, forks_count := p.forks_count,
        commit_count := some (commitCount p.statistics) }
  else
    projects.map fun p =>
      { name := p.name, star_count := p.star_count, forks_count := p.forks_count,
        commit_count := none }

/-- One iteration of the per-project loop body (app.py lines 102-125):
spinner, one language fetch, then either a Matplotlib pie chart (when the
returned mapping is truthy, i.e. non-empty) or the text fallback
(`st.write` of the bolded project name plus `st.caption`).  `column` is the
`col_idx` of the `st.columns(3)` cell used. -/
def renderDetail (lnet : Nat → Transport LangMap) (p : Project) (column : Nat) :
    List RenderEvent :=
  let languages := get_project_languages (lnet p.id)
  [.spinner ("Getting languages for " ++ p.name ++ "..."), .langFetch p.id] ++
    (if languages ≠ [] then
      [.pieChart p.name languages column]
    else
      [.textFallback p.name "No language data available." column])

/-- The `for project in projects[:9]` loop (app.py lines 101-126), with the
running `col_idx` that is updated by `col_idx = (col_idx + 1) % 3`. -/
def detailLoop (lnet : Nat → Transport LangMap) :
    List Project → Nat → List RenderEvent
  | [], _ => []
  | p :: ps, column =>
    renderDetail lnet p column ++ detailLoop lnet ps ((column + 1) % 3)

/-- Embeds `display_project_visuals` (app.py lines 80-126) as its trace of
render events.  `lnet` gives, per project id, the network outcome of the
language request issued for it. -/
def display_project_visuals (lnet : Nat → Transport LangMap)
    (projects : List Project) : List RenderEvent :=
  [.subheader "Project Visualizations"] ++
    (if projects = [] then
      [.warning "No projects found that are visible to you."]
    else
      [.markdown "#### Project Popularity & Activity",
       .barChart (barRows projects),
       .markdown "#### Language Breakdown per Project (Matplotlib)",
       .info "Fetching language data for each project... this may take a moment."] ++
        detailLoop lnet (projects.take 9) 0)

/-- Models Python `s.split(sep)` for a one-character separator, on the
character list of `s`: splits at every occurrence of `sep`, keeping empty
pieces, and always returns at least one piece. -/
def pySplit (sep : Char) : List Char → List (List Char)
  | [] => [[]]
  | c :: cs =>
    match pySplit sep cs with
    | [] => [[]]
    | g :: gs => if c = sep then [] :: g :: gs else (c :: g) :: gs

/-- The string interpolated into the Joined line (app.py line 75):
`user.get(lit created_at, lit N/A).split(lit T)[0]`. -/
def joinedShown (user : User) : String :=
  String.mk ((pySplit 'T' (user.created_at.getD "N/A").data).headI)

/-- Embeds `display_full_profile` (app.py lines 64-78) as its trace of render
events.  `user.get` on the optional fields yields `None`, which an f-string
prints as the text `None`; the avatar image is shown only when
`user.get(lit avatar_url)` is truthy (present and non-empty). -/
def display_full_profile (user : User) : List RenderEvent :=
  [.subheader ("Full Profile: " ++ user.name)] ++
    (if user.avatar_url.getD "" ≠ "" then [.image (user.avatar_url.getD "")] else []) ++
    [.markdown ("**Username:** `" ++ user.username ++ "`"),
     .markdown ("**ID:** `" ++ toString user.id ++ "`"),
     .markdown ("**State:** `" ++ user.state ++ "`"),
     .markdown ("**Joined:** " ++ joinedShown user),
     .markdown ("**Profile:** [View on GitLab](" ++ user.web_url.getD "None" ++ ")"),
     .jsonView user]

/-- Selects the language-fetch events of a trace, in order. -/
def fetchIds (trace : List RenderEvent) : List Nat :=
  trace.filterMap fun e =>
    match e with
    | .langFetch i => some i
    | _ => none

/-- Selects the bar-chart events of a trace, in order. -/
def barCharts (trace : List RenderEvent) : List (List BarRow) :=
  trace.filterMap fun e =>
    match e with
    | .barChart rows => some rows
    | _ => none

/-- Selects the per-project detail cells of a trace, in order: for a pie
chart the pair (project name, true), for a text fallback (project name,
false). -/
def detailCells (trace : List RenderEvent) : List (String × Bool) :=
  trace.filterMap fun e =>
    match e with
    | .pieChart t _ _ => some (t, true)
    | .textFallback n _ _ => some (n, false)
    | _ => none

/-- True exactly on pie-chart events. -/
def isPieChart : RenderEvent → Bool
  | .pieChart _ _ _ => true
  | _ => false

/-! Session state and the main script (app.py lines 128-163).  Streamlit
reruns the whole script on every interaction; the script first seeds the
greeting when the transcript is empty, then, when the chat input submitted a
prompt, runs the lookup handler.  The two view buttons only call the display
functions, which never touch `st.session_state`. -/

/-- The mutable session state: `st.session_state.messages` and
`st.session_state.user_data` (app.py lines 20-23). -/
structure SessionState where
  messages : List Message
  user_data : Option User
  deriving Repr, DecidableEq

/-- The state after the `st.session_state` initialisation on a fresh
session: empty transcript, no resolved user. -/
def initialState : SessionState :=
  { messages := [], user_data := none }

/-- Embeds `add_message` (app.py lines 132-133): append one message at the
end of the transcript. -/
def add_message (role content : String) (s : SessionState) : SessionState :=
  { s with messages := s.messages ++ [{ role := role, content := content }] }

/-- The greeting seeded when the transcript is empty (app.py line 136). -/
def greetingMessage : Message :=
  { role := "assistant",
    content := "Hi there! Enter a GitLab username to begin profiling." }

/-- Embeds the greeting initialisation (app.py lines 135-136): when the
transcript is empty, append the assistant greeting. -/
def greetingInit (s : SessionState) : SessionState :=
  if s.messages = [] then add_message "assistant" greetingMessage.content s else s

/-- The assistant reply when the lookup found a user (app.py line 149). -/
def foundReply (u : User) : String :=
  "Found user **" ++ u.name ++ "** (`" ++ u.username ++
    "`). What would you like to see?"

/-- The assistant reply when the lookup found nobody (app.py line 151). -/
def notFoundReply (prompt : String) : String :=
  "Sorry, I couldn\x27t find a user with the username \x27" ++ prompt ++ "\x27."

/-- Embeds the chat-input handler (app.py lines 142-152) for a submitted
`prompt`, with `unet` the network outcome of the user-lookup request: append
the user message, clear `user_data`, run `fetch_gitlab_user`, then either
store the found user and append the found reply, or append the not-found
reply. -/
def chatSubmit (unet : Transport (List User)) (prompt : String)
    (s : SessionState) : SessionState :=
  let s := add_message "user" prompt s
  let s := { s with user_data := none }
  match fetch_gitlab_user unet with
  | some u => add_message "assistant" (foundReply u) { s with user_data := some u }
  | none => add_message "assistant" (notFoundReply prompt) s

/-- One rerun of the script, as far as session state is concerned: either no
chat input was submitted (including the button-only reruns, since the view
buttons do not modify state), or a prompt was submitted and resolved against
network outcome `unet`. -/
inductive ScriptRun where
  | noInput
  | input (unet : Transport (List User)) (prompt : String)

/-- The session-state effect of one whole script rerun: greeting
initialisation first (it precedes the chat handler in the script), then the
chat handler when a prompt was submitted. -/
def runScript : ScriptRun → SessionState → SessionState
  | .noInput, s => greetingInit s
  | .input unet prompt, s => chatSubmit unet prompt (greetingInit s)

/-- The session states reachable from a fresh session by any sequence of
script reruns. -/
inductive Reachable : SessionState → Prop where
  | init : Reachable initialState
  | run (r : ScriptRun) {s : SessionState} : Reachable s → Reachable (runScript r s)

/-! Concrete sample values used to instantiate the theorems below. -/

/-- The user of the spec scenario: alice, joined 2020-01-01T00:00:00Z. -/
def aliceUser : User :=
  { id := 42, name := "Alice A", username := "alice", state := "active",
    created_at := some "2020-01-01T00:00:00Z" }

/-- A user record without a `created_at` field. -/
def noDateUser : User :=
  { id := 7, name := "Bob B", username := "bob", state := "active" }

/-- A project whose statistics object carries a commit count. -/
def proj1 : Project :=
  { id := 7, name := "demo", star_count := 3, forks_count := 1,
    statistics := some (.dict (some 5)) }

/-- A project record with no `statistics` key at all. -/
def projNoStats : Project :=
  { id := 1, name := "solo", star_count := 4, forks_count := 2 }

/-- A language network where every project resolves to a two-language map. -/
def lnetW : Nat → Transport LangMap :=
  fun _ => .ok { status := 200, body := [("Python", 60), ("C", 40)] }

/-- A language network where every request fails at the transport level. -/
def lnetFail : Nat → Transport LangMap :=
  fun _ => .error

end GitLabProfiler

namespace GitLabProfiler

/-! Helper lemmas shared by the claim theorems. -/

theorem pySplit_ne_nil (sep : Char) (l : List Char) : pySplit sep l ≠ [] := by
  cases l with
  | nil => simp [pySplit]
  | cons c cs =>
    cases hp : pySplit sep cs with
    | nil => simp [pySplit, hp]
    | cons g gs => by_cases hc : c = sep <;> simp [pySplit, hp, hc]

theorem pySplit_headI (sep : Char) (l : List Char) :
    (pySplit sep l).headI = l.takeWhile (fun c => c ≠ sep) := by
  induction l with
  | nil => rfl
  | cons c cs ih =>
    cases hp : pySplit sep cs with
    | nil => exact absurd hp (pySplit_ne_nil sep cs)
    | cons g gs =>
      have ihg : g = cs.takeWhile (fun c => decide (c ≠ sep)) := by
        simpa [hp] using ih
      by_cases hc : c = sep <;>
        simp [pySplit, hp, hc, List.takeWhile_cons, ihg, decide_not]

theorem fetchIds_append (a b : List RenderEvent) :
    fetchIds (a ++ b) = fetchIds a ++ fetchIds b := by
  simp [fetchIds]

theorem detailCells_append (a b : List RenderEvent) :
    detailCells (a ++ b) = detailCells a ++ detailCells b := by
  simp [detailCells]

theorem barCharts_append (a b : List RenderEvent) :
    barCharts (a ++ b) = barCharts a ++ barCharts b := by
  simp [barCharts]

theorem fetchIds_renderDetail (lnet : Nat → Transport LangMap) (p : Project)
    (column : Nat) : fetchIds (renderDetail lnet p column) = [p.id] := by
  simp only [renderDetail, fetchIds]
  split <;> rfl

theorem detailCells_renderDetail (lnet : Nat → Transport LangMap) (p : Project)
    (column : Nat) :
    detailCells (renderDetail lnet p column) =
      [(p.name, !(get_project_languages (lnet p.id)).isEmpty)] := by
  cases hl : get_project_languages (lnet p.id) with
  | nil => simp [renderDetail, detailCells, hl]
  | cons a as => simp [renderDetail, detailCells, hl]

theorem barCharts_renderDetail (lnet : Nat → Transport LangMap) (p : Project)
    (column : Nat) : barCharts (renderDetail lnet p column) = [] := by
  simp only [renderDetail, barCharts]
  split <;> rfl

theorem fetchIds_detailLoop (lnet : Nat → Transport LangMap) (ps : List Project)
    (column : Nat) : fetchIds (detailLoop lnet ps column) = ps.map Project.id := by
  induction ps generalizing column with
  | nil => rfl
  | cons p ps ih =>
    show fetchIds (renderDetail lnet p column ++ detailLoop lnet ps ((column + 1) % 3)) = _
    rw [fetchIds_append, fetchIds_renderDetail, ih]
    rfl

theorem detailCells_detailLoop (lnet : Nat → Transport LangMap) (ps : List Project)
    (column : Nat) :
    detailCells (detailLoop lnet ps column) =
      ps.map fun p => (p.name, !(get_project_languages (lnet p.id)).isEmpty) := by
  induction ps generalizing column with
  | nil => rfl
  | cons p ps ih =>
    show detailCells (renderDetail lnet p column ++ detailLoop lnet ps ((column + 1) % 3)) = _
    rw [detailCells_append, detailCells_renderDetail, ih]
    rfl

theorem barCharts_detailLoop (lnet : Nat → Transport LangMap) (ps : List Project)
    (column : Nat) : barCharts (detailLoop lnet ps column) = [] := by
  induction ps generalizing column with
  | nil => rfl
  | cons p ps ih =>
    show barCharts (renderDetail lnet p column ++ detailLoop lnet ps ((column + 1) % 3)) = _
    rw [barCharts_append, barCharts_renderDetail, ih]
    rfl

theorem fetchIds_visuals (lnet : Nat → Transport LangMap)
    (projects : List Project) (h : projects ≠ []) :
    fetchIds (display_project_visuals lnet projects) =
      (projects.take 9).map Project.id := by
  simp only [display_project_visuals, if_neg h]
  rw [fetchIds_append, fetchIds_append, fetchIds_detailLoop]
  rfl

theorem detailCells_visuals (lnet : Nat → Transport LangMap)
    (projects : List Project) (h : projects ≠ []) :
    detailCells (display_project_visuals lnet projects) =
      (projects.take 9).map
        (fun p => (p.name, !(get_project_languages (lnet p.id)).isEmpty)) := by
  simp only [display_project_visuals, if_neg h]
  rw [detailCells_append, detailCells_append, detailCells_detailLoop]
  rfl

theorem barCharts_visuals (lnet : Nat → Transport LangMap)
    (projects : List Project) (h : projects ≠ []) :
    barCharts (display_project_visuals lnet projects) = [barRows projects] := by
  simp only [display_project_visuals, if_neg h]
  rw [barCharts_append, barCharts_append, barCharts_detailLoop]
  rfl

theorem messages_add_message (role content : String) (s : SessionState) :
    (add_message role content s).messages =
      s.messages ++ [{ role := role, content := content }] := rfl

theorem messages_greetingInit (s : SessionState) :
    ∃ t, (greetingInit s).messages = s.messages ++ t := by
  by_cases h : s.messages = []
  · exact ⟨[greetingMessage], by simp [greetingInit, h, add_message, greetingMessage]⟩
  · exact ⟨[], by simp [greetingInit, h]⟩

theorem messages_chatSubmit (unet : Transport (List User)) (prompt : String)
    (s : SessionState) :
    ∃ t, (chatSubmit unet prompt s).messages = s.messages ++ t := by
  cases hf : fetch_gitlab_user unet with
  | some u =>
    refine ⟨[{ role := "user", content := prompt },
             { role := "assistant", content := foundReply u }], ?_⟩
    simp [chatSubmit, hf, add_message]
  | none =>
    refine ⟨[{ role := "user", content := prompt },
             { role := "assistant", content := notFoundReply prompt }], ?_⟩
    simp [chatSubmit, hf, add_message]

theorem greetingInit_head (s : SessionState)
    (h : s.messages = [] ∨ s.messages.head? = some greetingMessage) :
    (greetingInit s).messages.head? = some greetingMessage ∧
      (greetingInit s).messages ≠ [] := by
  rcases h with he | hh
  · constructor <;> simp [greetingInit, he, add_message, greetingMessage]
  · have hne : s.messages ≠ [] := by
      intro he
      rw [he] at hh
      simp at hh
    constructor <;> simp [greetingInit, hne, hh]

theorem reachable_head (s : SessionState) (h : Reachable s) :
    s.messages = [] ∨ s.messages.head? = some greetingMessage := by
  induction h with
  | init => exact Or.inl rfl
  | run r hr ih =>
    rename_i s'
    right
    cases r with
    | noInput => exact (greetingInit_head s' ih).1
    | input unet prompt =>
      obtain ⟨t, ht⟩ := messages_chatSubmit unet prompt (greetingInit s')
      have hg := greetingInit_head s' ih
      show (chatSubmit unet prompt (greetingInit s')).messages.head? =
        some greetingMessage
      cases hm : (greetingInit s').messages with
      | nil => exact absurd hm hg.2
      | cons a as =>
        have ha : a = greetingMessage := by
          have hh := hg.1
          rw [hm] at hh
          simpa using hh
        rw [ht, hm, ha]
        rfl

/-! The claim theorems. -/

/-- C1: for every username lookup whose HTTP call succeeds (status outside
400-599), `fetch_gitlab_user` returns exactly the first element of the match
array whenever it is non-empty, regardless of its length, and `None` when it
is empty. -/
theorem claim1_resolve_user_first (status : Nat) (users : List User)
    (h : ¬(400 ≤ status ∧ status < 600)) :
    fetch_gitlab_user (.ok { status := status, body := users }) = users.head? ∧
    (users = [] →
      fetch_gitlab_user (.ok { status := status, body := users }) = none) ∧
    (∀ u us, users = u :: us →
      fetch_gitlab_user (.ok { status := status, body := users }) = some u) := by
  have hr : raise_for_status
      ({ status := status, body := users } : HttpResponse (List User)) =
      .ok { status := status, body := users } := by
    simp [raise_for_status, h]
  have h0 : fetch_gitlab_user (.ok { status := status, body := users }) =
      users.head? := by
    simp [fetch_gitlab_user, hr]
  refine ⟨h0, ?_, ?_⟩
  · intro he
    rw [h0, he]
    rfl
  · intro u us he
    rw [h0, he]
    rfl

/-- Witness for C1: a 200 response with two matches yields the first one. -/
theorem claim1_witness :
    fetch_gitlab_user (.ok { status := 200, body := [aliceUser, noDateUser] }) =
      some aliceUser := by
  have h := claim1_resolve_user_first 200 [aliceUser, noDateUser] (by decide)
  exact h.2.2 aliceUser [noDateUser] rfl

/-- C2: `fetch_user_projects` and `get_project_languages` return the empty
sequence / empty mapping on every modelled failure of the HTTP call, both a
transport-level error and a non-success (4xx/5xx) status; both functions are
total, so no modelled failure escapes their boundary. -/
theorem claim2_fail_soft (status : Nat) (ps : List Project) (langs : LangMap)
    (h4 : 400 ≤ status) (h6 : status < 600) :
    fetch_user_projects .error = [] ∧
    fetch_user_projects (.ok { status := status, body := ps }) = [] ∧
    get_project_languages .error = [] ∧
    get_project_languages (.ok { status := status, body := langs }) = [] := by
  refine ⟨rfl, ?_, rfl, ?_⟩ <;>
    simp [fetch_user_projects, get_project_languages, raise_for_status, h4, h6]

/-- Witness for C2 at a 500 response and a transport failure. -/
theorem claim2_witness :
    fetch_user_projects (.ok { status := 500, body := [proj1] }) = [] ∧
    get_project_languages .error = [] := by
  have h := claim2_fail_soft 500 [proj1] [("Python", 100)] (by decide) (by decide)
  exact ⟨h.2.1, h.2.2.1⟩

/-- C3 counterexample: with a single project whose language request fails,
the project is within the first min(n,9), receives its one language fetch,
but receives no per-project chart (the text fallback is rendered instead);
so it is false that each of the first min(n,9) projects receives a
per-project chart. -/
theorem claim3_counterexample :
    fetchIds (display_project_visuals lnetFail [proj1]) = [proj1.id] ∧
    ¬∃ e ∈ display_project_visuals lnetFail [proj1], isPieChart e = true := by
  constructor
  · rfl
  · decide

/-- C3 (amended): for every non-empty project sequence of length n, exactly
the first min(n,9) projects each receive exactly one language-breakdown
fetch, issued sequentially in input order, and each of them receives exactly
one per-project detail render - a pie chart when its fetched breakdown is
non-empty, the text fallback otherwise - while the grouped bar chart still
reflects all n projects. -/
theorem claim3_cap_order (lnet : Nat → Transport LangMap)
    (projects : List Project) (h : projects ≠ []) :
    fetchIds (display_project_visuals lnet projects) =
      (projects.take 9).map Project.id ∧
    detailCells (display_project_visuals lnet projects) =
      (projects.take 9).map
        (fun p => (p.name, !(get_project_languages (lnet p.id)).isEmpty)) ∧
    barCharts (display_project_visuals lnet projects) = [barRows projects] ∧
    (barRows projects).length = projects.length := by
  refine ⟨fetchIds_visuals lnet projects h, detailCells_visuals lnet projects h,
    barCharts_visuals lnet projects h, ?_⟩
  unfold barRows
  split <;> simp

/-- Witness for C3 at one project whose breakdown has two languages. -/
theorem claim3_witness :
    fetchIds (display_project_visuals lnetW [proj1]) = [7] := by
  have h := (claim3_cap_order lnetW [proj1] (by decide)).1
  simpa [proj1] using h

/-- C4: a project whose fetched language breakdown is empty renders the text
fallback (the bolded project name and the no-language-data caption) and no
pie chart; the render is a total function, so the case raises no error. -/
theorem claim4_empty_fallback (lnet : Nat → Transport LangMap) (p : Project)
    (column : Nat) (h : get_project_languages (lnet p.id) = []) :
    renderDetail lnet p column =
      [.spinner ("Getting languages for " ++ p.name ++ "..."),
       .langFetch p.id,
       .textFallback p.name "No language data available." column] ∧
    ∀ e ∈ renderDetail lnet p column, isPieChart e = false := by
  have h1 : renderDetail lnet p column =
      [.spinner ("Getting languages for " ++ p.name ++ "..."),
       .langFetch p.id,
       .textFallback p.name "No language data available." column] := by
    simp [renderDetail, h]
  refine ⟨h1, ?_⟩
  intro e he
  rw [h1] at he
  simp only [List.mem_cons, List.not_mem_nil, or_false] at he
  rcases he with rfl | rfl | rfl <;> rfl

/-- Witness for C4 at a failing language request. -/
theorem claim4_witness :
    renderDetail lnetFail proj1 0 =
      [.spinner ("Getting languages for " ++ proj1.name ++ "..."),
       .langFetch proj1.id,
       .textFallback proj1.name "No language data available." 0] :=
  (claim4_empty_fallback lnetFail proj1 0 rfl).1

/-- C5: the Joined value shown by the profile view is the substring of
`created_at` before its first T character, and the literal N/A when the
field is absent. -/
theorem claim5_joined_date (user : User) :
    RenderEvent.markdown ("**Joined:** " ++ joinedShown user) ∈
      display_full_profile user ∧
    (∀ s, user.created_at = some s →
      joinedShown user = String.mk (s.data.takeWhile (fun c => c ≠ 'T'))) ∧
    (user.created_at = none → joinedShown user = "N/A") := by
  refine ⟨?_, ?_, ?_⟩
  · simp [display_full_profile]
  · intro s hs
    simp [joinedShown, hs, pySplit_headI]
  · intro hn
    simp only [joinedShown, hn, Option.getD_none]
    decide

/-- Witness for C5: the spec scenario date and a record without the field. -/
theorem claim5_witness :
    joinedShown aliceUser = "2020-01-01" ∧ joinedShown noDateUser = "N/A" := by
  constructor
  · have h := (claim5_joined_date aliceUser).2.1 "2020-01-01T00:00:00Z" rfl
    rw [h]
    decide
  · exact (claim5_joined_date noDateUser).2.2 rfl

/-- C6 counterexample: for a single project carrying no statistics field, the
bar chart built by the visuals view has no commit-count series at all
(commit_count is absent from every row), rather than a commit count
defaulting to 0. -/
theorem claim6_counterexample :
    barCharts (display_project_visuals lnetFail [projNoStats]) =
      [[{ name := "solo", star_count := 4, forks_count := 2,
          commit_count := none }]] ∧
    ¬∀ rows ∈ barCharts (display_project_visuals lnetFail [projNoStats]),
        ∀ row ∈ rows, (BarRow.commit_count row).isSome = true := by
  constructor
  · rfl
  · decide

/-- C6 (amended): the bar chart of the visuals view charts one row per
project; when at least one project has a statistics field, every row carries
a commit-count series, defaulting to 0 for a project whose statistics field
is absent or not a mapping; when no project has a statistics field, the
rows carry no commit-count series at all (only stars and forks). -/
theorem claim6_bar_series (lnet : Nat → Transport LangMap)
    (projects : List Project) (h : projects ≠ []) :
    barCharts (display_project_visuals lnet projects) = [barRows projects] ∧
    (hasStatisticsColumn projects = true →
      barRows projects = projects.map fun p =>
        { name := p.name, star_count := p.star_count,
          forks_count := p.forks_count,
          commit_count := some (commitCount p.statistics) }) ∧
    (hasStatisticsColumn projects = false →
      barRows projects = projects.map fun p =>
        { name := p.name, star_count := p.star_count,
          forks_count := p.forks_count, commit_count := none }) ∧
    commitCount none = 0 ∧ commitCount (some .nonDict) = 0 := by
  refine ⟨barCharts_visuals lnet projects h, ?_, ?_, rfl, rfl⟩
  · intro hc
    simp [barRows, hc]
  · intro hc
    simp [barRows, hc]

/-- Witness for C6 at one project whose statistics carry commit count 5. -/
theorem claim6_witness :
    barCharts (display_project_visuals lnetFail [proj1]) = [barRows [proj1]] ∧
    barRows [proj1] =
      [{ name := "demo", star_count := 3, forks_count := 1,
         commit_count := some 5 }] := by
  have h := claim6_bar_series lnetFail [proj1] (by decide)
  refine ⟨h.1, ?_⟩
  rw [h.2.1 (by decide)]
  decide

/-- C7: on the empty project sequence the visuals view renders exactly the
subheader and the no-projects warning: no bar chart is built and no language
fetch is performed. -/
theorem claim7_empty_notice (lnet : Nat → Transport LangMap) :
    display_project_visuals lnet [] =
      [.subheader "Project Visualizations",
       .warning "No projects found that are visible to you."] ∧
    fetchIds (display_project_visuals lnet []) = [] ∧
    barCharts (display_project_visuals lnet []) = [] :=
  ⟨rfl, rfl, rfl⟩

/-- C8: the transcript is append-only: every state-touching handler
(`add_message`, the greeting initialisation, the chat handler) and every
whole script rerun extends the message sequence at the end, so no existing
message is mutated, reordered or removed. -/
theorem claim8_append_only (s : SessionState) :
    (∀ role content, ∃ t,
      (add_message role content s).messages = s.messages ++ t) ∧
    (∃ t, (greetingInit s).messages = s.messages ++ t) ∧
    (∀ unet prompt, ∃ t,
      (chatSubmit unet prompt s).messages = s.messages ++ t) ∧
    (∀ r, ∃ t, (runScript r s).messages = s.messages ++ t) := by
  refine ⟨fun role content => ⟨[{ role := role, content := content }], rfl⟩,
    messages_greetingInit s,
    fun unet prompt => messages_chatSubmit unet prompt s, ?_⟩
  intro r
  cases r with
  | noInput => exact messages_greetingInit s
  | input unet prompt =>
    obtain ⟨t1, h1⟩ := messages_greetingInit s
    obtain ⟨t2, h2⟩ := messages_chatSubmit unet prompt (greetingInit s)
    refine ⟨t1 ++ t2, ?_⟩
    show (chatSubmit unet prompt (greetingInit s)).messages = _
    rw [h2, h1, List.append_assoc]

/-- C9: when the lookup yields no user, the chat handler leaves the session
with no profile selected, whatever user was stored before. -/
theorem claim9_not_found_clears (unet : Transport (List User)) (prompt : String)
    (s : SessionState) (h : fetch_gitlab_user unet = none) :
    (chatSubmit unet prompt s).user_data = none := by
  simp [chatSubmit, h, add_message]

/-- Witness for C9: a failing lookup clears a previously selected user. -/
theorem claim9_witness :
    (chatSubmit .error "carol"
      { messages := [greetingMessage], user_data := some aliceUser }).user_data =
      none :=
  claim9_not_found_clears .error "carol" _ rfl

/-- C10: in every reachable session state with a non-empty transcript, the
first message is the assistant greeting. -/
theorem claim10_greeting_first (s : SessionState) (h : Reachable s)
    (hne : s.messages ≠ []) : s.messages.head? = some greetingMessage := by
  rcases reachable_head s h with he | hh
  · exact absurd he hne
  · exact hh

/-- Witness for C10 at the state after one rerun of a fresh session. -/
theorem claim10_witness :
    (runScript .noInput initialState).messages.head? = some greetingMessage :=
  claim10_greeting_first (runScript .noInput initialState)
    (Reachable.run .noInput Reachable.init) (by decide)

end GitLabProfiler
